import Mathlib

/-!
Shallow embedding of `src/postfix/ip_updater.py` (class `AtlassianIPUpdater`),
the whitelist reconciler of the repository.  Pure data flow is translated to
Lean functions; the effectful parts (HTTP fetch, filesystem, subprocess calls,
DataDog emission) are modelled by an explicit environment record carrying the
outcomes of the external calls, an explicit filesystem record, and result
records listing the calls the code makes (metrics, events, postfix commands,
state-file writes).  Exceptions raised by an external call are modelled by
`Option` (`none` = the call raised).
-/

namespace IpUpdater

/-- One entry of the remote feed (`item` in `extract_email_ips`):
`item.get('product', [])`, `item.get('direction', [])` are tag lists and
`item.get('cidr')` a CIDR string; a missing or empty `cidr` is modelled as
`""` (both are falsy in Python). -/
structure Item where
  product : List String
  direction : List String
  cidr : String
deriving DecidableEq, Repr

/-- The JSON body of a 2xx response, as `response.json()` yields it:
`items` is `none` when the top-level `'items'` key is absent
(`'items' not in data` raises `ValueError` in `fetch_atlassian_data`). -/
structure ParsedJson where
  items : Option (List Item)
deriving DecidableEq, Repr

/-- The document returned by a successful `fetch_atlassian_data`: the `items`
list plus the `'_content_hash'` entry the function adds before returning. -/
structure FetchedData where
  items : List Item
  contentHash : String
deriving DecidableEq, Repr

/-- Outcome of `requests.get(self.atlassian_url, timeout=30)` followed by
`raise_for_status()`: `fail` covers a network/timeout exception or a non-2xx
status (both raise); `ok body parsed` is a 2xx response with raw text `body`
whose JSON parse is `parsed` (`none` = `response.json()` raises). -/
inductive HttpResult where
  | fail
  | ok (body : String) (parsed : Option ParsedJson)

/-- The Python guard `if last_hash and current_hash == last_hash` in
`fetch_atlassian_data`: the stored hash must be present, truthy (non-empty)
and equal to the current hash. -/
def hashMatches (lastHash : Option String) (currentHash : String) : Bool :=
  match lastHash with
  | some h => h != "" && currentHash == h
  | none => false

/-- `AtlassianIPUpdater.fetch_atlassian_data` (ip_updater.py lines 137-161).
`md5` abstracts `hashlib.md5(content.encode()).hexdigest()` — an arbitrary
function of the response body.  Any exception (network, non-2xx, malformed
JSON, missing `'items'`) is caught and yields `none`; a matching previous
hash also yields `none`, before the body is parsed. -/
def fetch_atlassian_data (md5 : String → String) (lastHash : Option String)
    (r : HttpResult) : Option FetchedData :=
  match r with
  | .fail => none
  | .ok body parsed =>
    let currentHash := md5 body
    if hashMatches lastHash currentHash then
      none
    else
      match parsed with
      | none => none
      | some pj =>
        match pj.items with
        | none => none
        | some its => some ⟨its, currentHash⟩

/-- The filter of `extract_email_ips`: `'email' in item.get('product', [])
and 'egress' in item.get('direction', []) and item.get('cidr')`. -/
def keepItem (it : Item) : Bool :=
  it.product.contains "email" && it.direction.contains "egress" && it.cidr != ""

/-- `AtlassianIPUpdater.extract_email_ips` (lines 163-172), applied to the
`items` list of the document (`data.get('items', [])`): collect the CIDRs of
the kept entries and return them sorted (Python `sorted`, lexicographic
ascending on strings). -/
def extract_email_ips (items : List Item) : List String :=
  List.insertionSort (· ≤ ·) ((items.filter keepItem).map (·.cidr))

/-- The persisted reconciliation state (`/tmp/atlassian_state.json`): a JSON
dict whose keys `content_hash`, `last_update`, `ip_count` may each be absent
(`state.get(...)`). -/
structure StateD where
  content_hash : Option String := none
  last_update : Option String := none
  ip_count : Option Nat := none
deriving DecidableEq, Repr

/-- The filesystem as the reconciler sees it: the whitelist file
`/etc/postfix/clients.cidr` (content, or `none` if absent), the state file,
and the backup files created so far (path, content). -/
structure FS where
  cidrFile : Option String := none
  stateFile : Option StateD := none
  backups : List (String × String) := []
deriving DecidableEq, Repr

/-- `load_state` (lines 45-53): returns the parsed state file, or `{}` when
it is absent (or unreadable — not modelled separately). -/
def loadState (fs : FS) : StateD := fs.stateFile.getD {}

/-- A `postfix` subcommand issued by the reload method. -/
inductive PfCmd where
  | status
  | start
  | reload
deriving DecidableEq, Repr

/-- Exit codes of the three `postfix` subcommands for one reload call; `none` = the `subprocess.run` call raised (e.g. timeout). -/
structure PfEnv where
  statusRc : Option Int := none
  startRc : Option Int := none
  reloadRc : Option Int := none
deriving DecidableEq, Repr

/-- The reload method of `AtlassianIPUpdater` (lines 204-235).  Returns the boolean
result together with the list of `postfix` subcommands issued, in order.
`postfix status` is always issued; when it exits non-zero, `postfix start`
is issued and a non-zero start exit returns `False` before any reload; an
exception anywhere is caught by the outer handler and returns `False`. -/
def reload_mta (p : PfEnv) : Bool × List PfCmd :=
  match p.statusRc with
  | none => (false, [.status])
  | some s =>
    if s != 0 then
      match p.startRc with
      | none => (false, [.status, .start])
      | some st =>
        if st == 0 then
          match p.reloadRc with
          | none => (false, [.status, .start, .reload])
          | some r => (r == 0, [.status, .start, .reload])
        else
          (false, [.status, .start])
    else
      match p.reloadRc with
      | none => (false, [.status, .reload])
      | some r => (r == 0, [.status, .reload])

/-- Environment of one `update_ips` pass: configuration, the outcomes of the
external calls it may make, and the timestamps it would read.  `md5` is the
hash function, `now` is `int(time.time())` at backup creation, `nowHdr` the
`strftime` header timestamp, `nowIso` the `datetime.now().isoformat()` value
stored in the state.  `writeRaises` injects a filesystem exception into
`update_cidr_file` (modelled as raised before any mutation). -/
structure Env where
  url : String := "https://ip-ranges.atlassian.com/"
  md5 : String → String
  http : HttpResult
  now : Nat := 0
  nowHdr : String := ""
  nowIso : String := ""
  writeRaises : Bool := false
  pf : PfEnv := {}

/-- `self.cidr_file_path`. -/
def cidrFilePath : String := "/etc/postfix/clients.cidr"

/-- The backup path `f"{self.cidr_file_path}.backup.{int(time.time())}"`. -/
def backupPath (now : Nat) : String := cidrFilePath ++ ".backup." ++ toString now

/-- The `<cidr> OK` lines of the whitelist file: one line
`f"{ip_range} OK"` per accepted range, in order. -/
def okLines (ipRanges : List String) : List String :=
  ipRanges.map fun r => s!"{r} OK"

/-- The header comment block of the generated whitelist file. -/
def headerLines (genTime url : String) (count : Nat) : List String :=
  [s!"# Generated at {genTime}", s!"# Source: {url}",
   s!"# Total IP ranges: {count}", ""]

/-- The full content written to the whitelist file by `update_cidr_file`:
header block, one `<cidr> OK` line per range, trailing empty line, joined
with newlines. -/
def cidrContent (genTime url : String) (ipRanges : List String) : String :=
  String.intercalate "\n"
    (headerLines genTime url ipRanges.length ++ okLines ipRanges ++ [""])

/-- `AtlassianIPUpdater.update_cidr_file` (lines 174-202).  If the whitelist
file exists, it is first copied to a timestamped backup path; then the new
content is generated and written.  Returns the new filesystem and the boolean
result; an injected exception (`writeRaises`) returns `False` with the
filesystem unchanged (modelled as raised before any mutation). -/
def update_cidr_file (env : Env) (fs : FS) (ipRanges : List String) :
    FS × Bool :=
  if env.writeRaises then
    (fs, false)
  else
    let fs1 :=
      match fs.cidrFile with
      | some old => { fs with backups := fs.backups ++ [(backupPath env.now, old)] }
      | none => fs
    ({ fs1 with cidrFile := some (cidrContent env.nowHdr env.url ipRanges) }, true)

/-- One call to `send_datadog_event`: title, text and alert type.  (Actual
delivery depends on the DataDog key and network and is swallowed on failure;
we record the calls the reconciler makes.) -/
structure DDEvent where
  title : String
  text : String
  alert_type : String
deriving DecidableEq, Repr

/-- `"atlassian.ip_updater.ip_count"`. -/
def ipCountMetric : String := "atlassian.ip_updater.ip_count"

/-- `"atlassian.ip_updater.postfix_reload_success"`. -/
def reloadMetric : String := "atlassian.ip_updater.postfix_reload_success"

/-- Everything one `update_ips` pass does: the filesystem afterwards, the
arguments of each `save_state` call, the metrics and events sent (in order),
the `postfix` subcommands issued, and the returned boolean. -/
structure UpdateResult where
  fs : FS
  saveCalls : List StateD := []
  metrics : List (String × Int) := []
  events : List DDEvent := []
  cmds : List PfCmd := []
  ret : Bool
deriving DecidableEq, Repr

/-- `AtlassianIPUpdater.update_ips` (lines 262-323), the reconciliation pass:
load state, fetch (with change detection), extract, write the whitelist,
reload postfix, persist state, emit notification and metrics.  (`save_state`
swallows its own I/O errors; we model the successful write.) -/
def update_ips (env : Env) (fs : FS) : UpdateResult :=
  let state := loadState fs
  match fetch_atlassian_data env.md5 state.content_hash env.http with
  | none =>
    let c : Int := (state.ip_count.getD 0 : Nat)
    { fs := fs
      metrics := [(ipCountMetric, c), (reloadMetric, 1)]
      ret := true }
  | some data =>
    let emailIps := extract_email_ips data.items
    if emailIps = [] then
      { fs := fs
        events := [⟨"Atlassian IP Update Error",
                    "No email IPs found in Atlassian data", "error"⟩]
        ret := false }
    else
      let wres := update_cidr_file env fs emailIps
      if wres.2 then
        let pr := reload_mta env.pf
        let n := emailIps.length
        let newState : StateD :=
          { content_hash := some data.contentHash
            last_update := some env.nowIso
            ip_count := some n }
        let statusEmoji := if pr.1 then "✅" else "⚠️"
        let pfMsg := if pr.1 then "and reloaded Postfix"
                     else "but failed to reload Postfix"
        { fs := { wres.1 with stateFile := some newState }
          saveCalls := [newState]
          events := [⟨"Atlassian IP Whitelist Updated",
                      s!"{statusEmoji} Updated email whitelist with {n} IP ranges {pfMsg}",
                      if pr.1 then "success" else "warning"⟩]
          metrics := [(ipCountMetric, (n : Int)),
                      (reloadMetric, if pr.1 then 1 else 0)]
          cmds := pr.2
          ret := pr.1 }
      else
        { fs := wres.1
          events := [⟨"Atlassian IP Update Error",
                      "Failed to update CIDR file", "error"⟩]
          ret := false }

end IpUpdater

namespace IpUpdater

/-- Claim C1: `extract_email_ips` returns exactly the CIDR strings of the
entries whose product-tag list contains "email", whose direction-tag list
contains "egress" and whose CIDR field is non-empty, sorted lexicographically
ascending, with no entries lost or added; in particular on the two-item
scenario document it returns `["10.0.0.0/8"]`. -/
theorem C1_extract_email_ips (items : List Item) :
    (∀ it : Item, keepItem it = true ↔
      ("email" ∈ it.product ∧ "egress" ∈ it.direction ∧ it.cidr ≠ ""))
    ∧ (extract_email_ips items).Perm ((items.filter keepItem).map (·.cidr))
    ∧ List.Sorted (· ≤ ·) (extract_email_ips items)
    ∧ extract_email_ips
        [⟨["email"], ["egress"], "10.0.0.0/8"⟩, ⟨["jira"], ["egress"], "10.1.0.0/16"⟩]
      = ["10.0.0.0/8"] := by
  refine ⟨fun it => by simp [keepItem, and_assoc],
    List.perm_insertionSort _ _, List.sorted_insertionSort _ _, by decide⟩

/-- Claim C4, counterexample: the "no change" result of
`fetch_atlassian_data` is NOT distinct from the error result — a failed
request and a matching-hash 2xx response both return `none`, so they are the
very same value at the call site. -/
theorem C4_counterexample :
    fetch_atlassian_data (fun _ => "h") (some "h") HttpResult.fail
      = fetch_atlassian_data (fun _ => "h") (some "h")
          (HttpResult.ok "body" (some ⟨some [⟨["email"], ["egress"], "1.2.3.0/24"⟩]⟩))
    ∧ fetch_atlassian_data (fun _ => "h") (some "h") HttpResult.fail = none := by
  exact ⟨rfl, rfl⟩

/-- Claim C4, amended: `fetch_atlassian_data` returns `none` both when a
previous hash exists and matches the newly computed content hash AND on
network/timeout failure, non-2xx status or malformed JSON; only the
"changed" outcome is distinguishable (the parsed document, tagged with its
content hash).  "No change" and "error" are not distinguishable at the call
site. -/
theorem C4_amended_fetch_results (md5 : String → String) (lastHash : Option String)
    (body : String) (pj : ParsedJson) (its : List Item)
    (hits : pj.items = some its) :
    fetch_atlassian_data md5 lastHash HttpResult.fail = none
    ∧ (hashMatches lastHash (md5 body) = true →
        fetch_atlassian_data md5 lastHash (HttpResult.ok body (some pj)) = none)
    ∧ (hashMatches lastHash (md5 body) = false →
        fetch_atlassian_data md5 lastHash (HttpResult.ok body (some pj))
          = some ⟨its, md5 body⟩)
    ∧ fetch_atlassian_data md5 lastHash (HttpResult.ok body none) = none := by
  refine ⟨rfl, fun h => by simp [fetch_atlassian_data, h],
    fun h => by simp [fetch_atlassian_data, h, hits], ?_⟩
  cases hm : hashMatches lastHash (md5 body) <;>
    simp [fetch_atlassian_data, hm]

/-- Witness for C4's amended theorem at a concrete input: stored hash "x",
body "y" (identity hash), well-formed document — the changed outcome. -/
theorem C4_amended_witness :
    hashMatches (some "x") ((fun (s : String) => s) "y") = false
    ∧ fetch_atlassian_data (fun s => s) (some "x")
        (HttpResult.ok "y" (some ⟨some [⟨["email"], ["egress"], "1.0.0.0/8"⟩]⟩))
      = some ⟨[⟨["email"], ["egress"], "1.0.0.0/8"⟩], "y"⟩ :=
  ⟨by decide,
   (C4_amended_fetch_results (fun s => s) (some "x") "y"
      ⟨some [⟨["email"], ["egress"], "1.0.0.0/8"⟩]⟩
      [⟨["email"], ["egress"], "1.0.0.0/8"⟩] rfl).2.2.1 (by decide)⟩

/-- Claim C5, counterexample: with `postfix status` exiting 1 and
`postfix start` exiting 1, the reload method returns early — no reload
subcommand is issued (the claim says reload is unconditional), and the
return value is `false` even though the reload exit code would have been 0
(so the return value does not equal `reload exit code == 0`). -/
theorem C5_counterexample :
    reload_mta ⟨some 1, some 1, some 0⟩ = (false, [PfCmd.status, PfCmd.start])
    ∧ PfCmd.reload ∉ (reload_mta ⟨some 1, some 1, some 0⟩).2
    ∧ (reload_mta ⟨some 1, some 1, some 0⟩).1 = false := by
  refine ⟨by decide, by decide, by decide⟩

/-- Claim C5, amended: the reload method always issues the status subcommand
first; when status exits 0 it issues reload and returns
`reload exit code == 0`; when status exits non-zero it issues start, and if
start exits 0 it issues reload and returns `reload exit code == 0`, but if
start exits non-zero it returns `false` WITHOUT issuing reload. -/
theorem C5_amended_reload_mta (p : PfEnv) (s st rc : Int) :
    (reload_mta p).2.head? = some PfCmd.status
    ∧ (p.statusRc = some 0 → p.reloadRc = some rc →
        reload_mta p = ((rc == 0), [PfCmd.status, PfCmd.reload]))
    ∧ (p.statusRc = some s → s ≠ 0 → p.startRc = some 0 → p.reloadRc = some rc →
        reload_mta p = ((rc == 0), [PfCmd.status, PfCmd.start, PfCmd.reload]))
    ∧ (p.statusRc = some s → s ≠ 0 → p.startRc = some st → st ≠ 0 →
        reload_mta p = (false, [PfCmd.status, PfCmd.start])) := by
  refine ⟨?_, fun h1 h2 => by simp [reload_mta, h1, h2],
    fun h1 h2 h3 h4 => by simp [reload_mta, h1, h2, h3, h4],
    fun h1 h2 h3 h4 => by simp [reload_mta, h1, h2, h3, h4]⟩
  unfold reload_mta
  repeat' split
  all_goals rfl

/-- Witness for C5's amended theorem at a concrete input: status exits 1,
start exits 0, reload exits 0 — reload is issued and the result is
`0 == 0`. -/
theorem C5_amended_witness :
    reload_mta ⟨some 1, some 0, some 0⟩
      = (((0 : Int) == 0), [PfCmd.status, PfCmd.start, PfCmd.reload]) :=
  (C5_amended_reload_mta ⟨some 1, some 0, some 0⟩ 1 0 0).2.2.1
    rfl (by decide) rfl rfl

end IpUpdater

namespace IpUpdater

/-- Claim C2: when the feed's content hash equals the previously stored hash,
`update_ips` performs no filesystem write (no whitelist write, no backup, no
state-file write) and no reload call, emits the ip_count metric with the
previously stored ip_count value (and the reload-success metric with 1), and
returns success. -/
theorem C2_no_change_frame (env : Env) (fs : FS) (body : String)
    (pj : Option ParsedJson) (hash : String) (c : Nat)
    (hhttp : env.http = HttpResult.ok body pj)
    (hstored : (loadState fs).content_hash = some hash)
    (hne : hash ≠ "")
    (hmd5 : env.md5 body = hash)
    (hc : (loadState fs).ip_count = some c) :
    (update_ips env fs).fs = fs
    ∧ (update_ips env fs).saveCalls = []
    ∧ (update_ips env fs).cmds = []
    ∧ (update_ips env fs).events = []
    ∧ (update_ips env fs).metrics = [(ipCountMetric, (c : Int)), (reloadMetric, 1)]
    ∧ (update_ips env fs).ret = true := by
  have hm : hashMatches (loadState fs).content_hash (env.md5 body) = true := by
    simp [hashMatches, hstored, hmd5, hne]
  have hfetch : fetch_atlassian_data env.md5 (loadState fs).content_hash env.http
      = none := by
    rw [hhttp]; simp [fetch_atlassian_data, hm]
  simp [update_ips, hfetch, hc]

/-- Witness for C2 at a concrete input: stored hash "h" with count 5, a 2xx
response whose body hashes to "h". -/
theorem C2_witness :
    (update_ips { md5 := fun _ => "h", http := HttpResult.ok "b" none }
        { stateFile := some { content_hash := some "h", ip_count := some 5 } }).fs
      = { stateFile := some { content_hash := some "h", ip_count := some 5 } }
    ∧ (update_ips { md5 := fun _ => "h", http := HttpResult.ok "b" none }
        { stateFile := some { content_hash := some "h", ip_count := some 5 } }).saveCalls = []
    ∧ (update_ips { md5 := fun _ => "h", http := HttpResult.ok "b" none }
        { stateFile := some { content_hash := some "h", ip_count := some 5 } }).cmds = []
    ∧ (update_ips { md5 := fun _ => "h", http := HttpResult.ok "b" none }
        { stateFile := some { content_hash := some "h", ip_count := some 5 } }).events = []
    ∧ (update_ips { md5 := fun _ => "h", http := HttpResult.ok "b" none }
        { stateFile := some { content_hash := some "h", ip_count := some 5 } }).metrics
      = [(ipCountMetric, 5), (reloadMetric, 1)]
    ∧ (update_ips { md5 := fun _ => "h", http := HttpResult.ok "b" none }
        { stateFile := some { content_hash := some "h", ip_count := some 5 } }).ret
      = true :=
  C2_no_change_frame { md5 := fun _ => "h", http := HttpResult.ok "b" none }
    { stateFile := some { content_hash := some "h", ip_count := some 5 } }
    "b" none "h" 5 rfl rfl (by decide) rfl rfl

/-- Claim C3: when the whitelist was written successfully but the postfix
reload exits non-zero, the state file is still updated with the new hash,
timestamp and count, the emitted notification has alert type "warning" (not
"error"), the reload-success metric carries 0, and `update_ips` returns the
reload outcome `false`. -/
theorem C3_reload_failure_state_persisted (env : Env) (fs : FS) (body : String)
    (pj : ParsedJson) (its : List Item) (rc : Int)
    (hhttp : env.http = HttpResult.ok body (some pj))
    (hitems : pj.items = some its)
    (hm : hashMatches (loadState fs).content_hash (env.md5 body) = false)
    (hne : extract_email_ips its ≠ [])
    (hw : env.writeRaises = false)
    (hst : env.pf.statusRc = some 0)
    (hrl : env.pf.reloadRc = some rc)
    (hrc : rc ≠ 0) :
    (update_ips env fs).saveCalls
      = [{ content_hash := some (env.md5 body), last_update := some env.nowIso,
           ip_count := some (extract_email_ips its).length }]
    ∧ (update_ips env fs).fs.stateFile
      = some { content_hash := some (env.md5 body), last_update := some env.nowIso,
               ip_count := some (extract_email_ips its).length }
    ∧ (update_ips env fs).events.map DDEvent.alert_type = ["warning"]
    ∧ (update_ips env fs).metrics
      = [(ipCountMetric, ((extract_email_ips its).length : Int)), (reloadMetric, 0)]
    ∧ (update_ips env fs).ret = false := by
  have hfetch : fetch_atlassian_data env.md5 (loadState fs).content_hash env.http
      = some ⟨its, env.md5 body⟩ := by
    rw [hhttp]; simp [fetch_atlassian_data, hm, hitems]
  have hpf : reload_mta env.pf = (false, [PfCmd.status, PfCmd.reload]) := by
    simp [reload_mta, hst, hrl, hrc]
  simp [update_ips, hfetch, hne, update_cidr_file, hw, hpf]

/-- Witness for C3 at a concrete input: empty prior state, one matching feed
item, status exit 0, reload exit 1. -/
theorem C3_witness :
    (update_ips
        { md5 := fun _ => "h",
          http := HttpResult.ok "b" (some ⟨some [⟨["email"], ["egress"], "10.0.0.0/8"⟩]⟩),
          nowIso := "T", pf := { statusRc := some 0, reloadRc := some 1 } }
        {}).saveCalls
      = [{ content_hash := some "h", last_update := some "T", ip_count := some 1 }]
    ∧ (update_ips
        { md5 := fun _ => "h",
          http := HttpResult.ok "b" (some ⟨some [⟨["email"], ["egress"], "10.0.0.0/8"⟩]⟩),
          nowIso := "T", pf := { statusRc := some 0, reloadRc := some 1 } }
        {}).fs.stateFile
      = some { content_hash := some "h", last_update := some "T", ip_count := some 1 }
    ∧ (update_ips
        { md5 := fun _ => "h",
          http := HttpResult.ok "b" (some ⟨some [⟨["email"], ["egress"], "10.0.0.0/8"⟩]⟩),
          nowIso := "T", pf := { statusRc := some 0, reloadRc := some 1 } }
        {}).events.map DDEvent.alert_type = ["warning"]
    ∧ (update_ips
        { md5 := fun _ => "h",
          http := HttpResult.ok "b" (some ⟨some [⟨["email"], ["egress"], "10.0.0.0/8"⟩]⟩),
          nowIso := "T", pf := { statusRc := some 0, reloadRc := some 1 } }
        {}).metrics = [(ipCountMetric, 1), (reloadMetric, 0)]
    ∧ (update_ips
        { md5 := fun _ => "h",
          http := HttpResult.ok "b" (some ⟨some [⟨["email"], ["egress"], "10.0.0.0/8"⟩]⟩),
          nowIso := "T", pf := { statusRc := some 0, reloadRc := some 1 } }
        {}).ret = false :=
  C3_reload_failure_state_persisted
    { md5 := fun _ => "h",
      http := HttpResult.ok "b" (some ⟨some [⟨["email"], ["egress"], "10.0.0.0/8"⟩]⟩),
      nowIso := "T", pf := { statusRc := some 0, reloadRc := some 1 } }
    {} "b" ⟨some [⟨["email"], ["egress"], "10.0.0.0/8"⟩]⟩
    [⟨["email"], ["egress"], "10.0.0.0/8"⟩] 1
    rfl rfl rfl (by decide) rfl rfl rfl (by decide)

end IpUpdater

namespace IpUpdater

/-- Claim C6: after a successful reconciliation the persisted state's
`ip_count` equals the number of `<cidr> OK` lines written in the new
whitelist file — the file content is the header block followed by exactly
`okLines` (one line per accepted CIDR), and the persisted count equals the
length of that line list. -/
theorem C6_ip_count_matches_ok_lines (env : Env) (fs : FS) (body : String)
    (pj : ParsedJson) (its : List Item)
    (hhttp : env.http = HttpResult.ok body (some pj))
    (hitems : pj.items = some its)
    (hm : hashMatches (loadState fs).content_hash (env.md5 body) = false)
    (hne : extract_email_ips its ≠ [])
    (hw : env.writeRaises = false) :
    (update_ips env fs).fs.cidrFile
      = some (cidrContent env.nowHdr env.url (extract_email_ips its))
    ∧ (update_ips env fs).fs.stateFile
      = some { content_hash := some (env.md5 body), last_update := some env.nowIso,
               ip_count := some (okLines (extract_email_ips its)).length }
    ∧ (okLines (extract_email_ips its)).length = (extract_email_ips its).length := by
  have hfetch : fetch_atlassian_data env.md5 (loadState fs).content_hash env.http
      = some ⟨its, env.md5 body⟩ := by
    rw [hhttp]; simp [fetch_atlassian_data, hm, hitems]
  simp [update_ips, hfetch, hne, update_cidr_file, hw, okLines]

/-- Witness for C6 at a concrete input: empty prior state, one matching feed
item; the written file and persisted count are shown evaluated. -/
theorem C6_witness :
    (update_ips
        { md5 := fun _ => "h",
          http := HttpResult.ok "b" (some ⟨some [⟨["email"], ["egress"], "10.0.0.0/8"⟩]⟩),
          nowHdr := "t", url := "u", nowIso := "T" }
        {}).fs.cidrFile
      = some "# Generated at t\n# Source: u\n# Total IP ranges: 1\n\n10.0.0.0/8 OK\n"
    ∧ (update_ips
        { md5 := fun _ => "h",
          http := HttpResult.ok "b" (some ⟨some [⟨["email"], ["egress"], "10.0.0.0/8"⟩]⟩),
          nowHdr := "t", url := "u", nowIso := "T" }
        {}).fs.stateFile
      = some { content_hash := some "h", last_update := some "T", ip_count := some 1 }
    ∧ ([("10.0.0.0/8" : String)].map fun r => s!"{r} OK").length = 1 := by
  have h := C6_ip_count_matches_ok_lines
    { md5 := fun _ => "h",
      http := HttpResult.ok "b" (some ⟨some [⟨["email"], ["egress"], "10.0.0.0/8"⟩]⟩),
      nowHdr := "t", url := "u", nowIso := "T" }
    {} "b" ⟨some [⟨["email"], ["egress"], "10.0.0.0/8"⟩]⟩
    [⟨["email"], ["egress"], "10.0.0.0/8"⟩]
    rfl rfl rfl (by decide) rfl
  exact ⟨by rw [h.1]; decide, by rw [h.2.1]; decide, by decide⟩

/-- Claim C7: a successful `update_cidr_file` call made while a prior
whitelist file exists creates exactly one new backup file, its name is the
whitelist path with `.backup.<unix timestamp>` appended, its content is the
prior whitelist file's content byte-for-byte (the copy is taken from the
pre-mutation content), and the whitelist file is then overwritten with the
generated content. -/
theorem C7_backup_on_existing (env : Env) (fs : FS) (ipRanges : List String)
    (old : String)
    (hold : fs.cidrFile = some old)
    (hw : env.writeRaises = false) :
    update_cidr_file env fs ipRanges
      = ({ cidrFile := some (cidrContent env.nowHdr env.url ipRanges),
           stateFile := fs.stateFile,
           backups := fs.backups ++ [(backupPath env.now, old)] }, true)
    ∧ backupPath env.now = "/etc/postfix/clients.cidr.backup." ++ toString env.now := by
  constructor
  · simp [update_cidr_file, hw, hold]
  · exact congrArg (· ++ toString env.now) (by decide)

/-- Witness for C7 at a concrete input: an existing whitelist file
"OLDCONTENT", timestamp 42, one range. -/
theorem C7_witness :
    update_cidr_file
        { md5 := fun s => s, http := HttpResult.fail, now := 42, nowHdr := "t", url := "u" }
        { cidrFile := some "OLDCONTENT" } ["1.2.3.0/24"]
      = ({ cidrFile := some (cidrContent "t" "u" ["1.2.3.0/24"]),
           stateFile := none,
           backups := [("/etc/postfix/clients.cidr.backup.42", "OLDCONTENT")] }, true)
    ∧ backupPath 42 = "/etc/postfix/clients.cidr.backup.42" :=
  C7_backup_on_existing
    { md5 := fun s => s, http := HttpResult.fail, now := 42, nowHdr := "t", url := "u" }
    { cidrFile := some "OLDCONTENT" } ["1.2.3.0/24"] "OLDCONTENT" rfl rfl

/-- Claim C8: when extraction yields the empty list, `update_ips` aborts
before any file mutation — the filesystem (whitelist file, state file,
backups) is unchanged, an error notification is emitted, no postfix command
is issued, and the call returns `false`. -/
theorem C8_empty_extraction_aborts (env : Env) (fs : FS) (body : String)
    (pj : ParsedJson) (its : List Item)
    (hhttp : env.http = HttpResult.ok body (some pj))
    (hitems : pj.items = some its)
    (hm : hashMatches (loadState fs).content_hash (env.md5 body) = false)
    (hempty : extract_email_ips its = []) :
    (update_ips env fs).fs = fs
    ∧ (update_ips env fs).events
      = [⟨"Atlassian IP Update Error", "No email IPs found in Atlassian data", "error"⟩]
    ∧ (update_ips env fs).cmds = []
    ∧ (update_ips env fs).saveCalls = []
    ∧ (update_ips env fs).ret = false := by
  have hfetch : fetch_atlassian_data env.md5 (loadState fs).content_hash env.http
      = some ⟨its, env.md5 body⟩ := by
    rw [hhttp]; simp [fetch_atlassian_data, hm, hitems]
  simp [update_ips, hfetch, hempty]

/-- Witness for C8 at a concrete input: a feed whose only item has product
"jira", with an existing whitelist file that stays untouched. -/
theorem C8_witness :
    (update_ips
        { md5 := fun _ => "h",
          http := HttpResult.ok "b" (some ⟨some [⟨["jira"], ["egress"], "10.1.0.0/16"⟩]⟩) }
        { cidrFile := some "W" }).fs = { cidrFile := some "W" }
    ∧ (update_ips
        { md5 := fun _ => "h",
          http := HttpResult.ok "b" (some ⟨some [⟨["jira"], ["egress"], "10.1.0.0/16"⟩]⟩) }
        { cidrFile := some "W" }).events
      = [⟨"Atlassian IP Update Error", "No email IPs found in Atlassian data", "error"⟩]
    ∧ (update_ips
        { md5 := fun _ => "h",
          http := HttpResult.ok "b" (some ⟨some [⟨["jira"], ["egress"], "10.1.0.0/16"⟩]⟩) }
        { cidrFile := some "W" }).cmds = []
    ∧ (update_ips
        { md5 := fun _ => "h",
          http := HttpResult.ok "b" (some ⟨some [⟨["jira"], ["egress"], "10.1.0.0/16"⟩]⟩) }
        { cidrFile := some "W" }).saveCalls = []
    ∧ (update_ips
        { md5 := fun _ => "h",
          http := HttpResult.ok "b" (some ⟨some [⟨["jira"], ["egress"], "10.1.0.0/16"⟩]⟩) }
        { cidrFile := some "W" }).ret = false :=
  C8_empty_extraction_aborts
    { md5 := fun _ => "h",
      http := HttpResult.ok "b" (some ⟨some [⟨["jira"], ["egress"], "10.1.0.0/16"⟩]⟩) }
    { cidrFile := some "W" } "b" ⟨some [⟨["jira"], ["egress"], "10.1.0.0/16"⟩]⟩
    [⟨["jira"], ["egress"], "10.1.0.0/16"⟩] rfl rfl rfl (by decide)

end IpUpdater

namespace IpUpdater

/-- Claim C9, counterexample: a successful fetch (2xx response) whose content
hash matches the stored hash does NOT cause the state file to be rewritten —
`save_state` is never called and the filesystem is unchanged, although the
pass returns success.  (The claim says the state record is overwritten on
every successful fetch-and-diff pass, even when the hash matches.) -/
theorem C9_counterexample :
    (update_ips
        { md5 := fun _ => "h",
          http := HttpResult.ok "b" (some ⟨some [⟨["email"], ["egress"], "10.0.0.0/8"⟩]⟩) }
        { stateFile := some { content_hash := some "h", ip_count := some 1 } }).saveCalls
      = []
    ∧ (update_ips
        { md5 := fun _ => "h",
          http := HttpResult.ok "b" (some ⟨some [⟨["email"], ["egress"], "10.0.0.0/8"⟩]⟩) }
        { stateFile := some { content_hash := some "h", ip_count := some 1 } }).fs
      = { stateFile := some { content_hash := some "h", ip_count := some 1 } }
    ∧ (update_ips
        { md5 := fun _ => "h",
          http := HttpResult.ok "b" (some ⟨some [⟨["email"], ["egress"], "10.0.0.0/8"⟩]⟩) }
        { stateFile := some { content_hash := some "h", ip_count := some 1 } }).ret
      = true :=
  ⟨rfl, rfl, rfl⟩

/-- Claim C9, amended: the persisted state record is overwritten only on a
pass that proceeds through a successful whitelist write (then it is written,
with the new hash, timestamp and count, whatever the reload outcome); on a
pass whose content hash matches the previously stored hash, the pass ends
early and the state file is not written at all. -/
theorem C9_state_write_only_on_change (env : Env) (fs : FS) (body : String)
    (pj : ParsedJson) (its : List Item)
    (hhttp : env.http = HttpResult.ok body (some pj))
    (hitems : pj.items = some its)
    (hw : env.writeRaises = false) :
    (hashMatches (loadState fs).content_hash (env.md5 body) = true →
      (update_ips env fs).saveCalls = []
      ∧ (update_ips env fs).fs.stateFile = fs.stateFile)
    ∧ (hashMatches (loadState fs).content_hash (env.md5 body) = false →
      extract_email_ips its ≠ [] →
      (update_ips env fs).saveCalls
        = [{ content_hash := some (env.md5 body), last_update := some env.nowIso,
             ip_count := some (extract_email_ips its).length }]) := by
  constructor
  · intro hm
    have hfetch : fetch_atlassian_data env.md5 (loadState fs).content_hash env.http
        = none := by
      rw [hhttp]; simp [fetch_atlassian_data, hm]
    simp [update_ips, hfetch]
  · intro hm hne
    have hfetch : fetch_atlassian_data env.md5 (loadState fs).content_hash env.http
        = some ⟨its, env.md5 body⟩ := by
      rw [hhttp]; simp [fetch_atlassian_data, hm, hitems]
    simp [update_ips, hfetch, hne, update_cidr_file, hw]

/-- Witness for C9's amended theorem at a concrete input: matching stored
hash — no state write. -/
theorem C9_amended_witness :
    hashMatches (some "h") "h" = true
    ∧ (update_ips
        { md5 := fun _ => "h",
          http := HttpResult.ok "x" (some ⟨some [⟨["email"], ["egress"], "1.0.0.0/8"⟩]⟩) }
        { stateFile := some { content_hash := some "h" } }).saveCalls = []
    ∧ (update_ips
        { md5 := fun _ => "h",
          http := HttpResult.ok "x" (some ⟨some [⟨["email"], ["egress"], "1.0.0.0/8"⟩]⟩) }
        { stateFile := some { content_hash := some "h" } }).fs.stateFile
      = some { content_hash := some "h" } :=
  have h := (C9_state_write_only_on_change
    { md5 := fun _ => "h",
      http := HttpResult.ok "x" (some ⟨some [⟨["email"], ["egress"], "1.0.0.0/8"⟩]⟩) }
    { stateFile := some { content_hash := some "h" } } "x"
    ⟨some [⟨["email"], ["egress"], "1.0.0.0/8"⟩]⟩
    [⟨["email"], ["egress"], "1.0.0.0/8"⟩] rfl rfl rfl).1 (by decide)
  ⟨by decide, h.1, h.2⟩

/-- Claim C10: when the remote fetch itself fails (network/timeout, non-2xx
or malformed JSON), `update_ips` returns `true`, emits the reload-success
metric with 1 and the ip_count metric with the previously persisted count,
touches nothing, and its result is the very result of a genuine "no change"
pass — a fetch error is indistinguishable from "no change" at the call
site. -/
theorem C10_fetch_error_is_no_change (env : Env) (fs : FS) (c : Nat)
    (hhttp : env.http = HttpResult.fail)
    (hc : (loadState fs).ip_count = some c) :
    (update_ips env fs).ret = true
    ∧ (update_ips env fs).metrics
      = [(ipCountMetric, (c : Int)), (reloadMetric, 1)]
    ∧ (update_ips env fs).fs = fs
    ∧ (update_ips env fs).events = []
    ∧ (update_ips env fs).cmds = []
    ∧ (update_ips env fs).saveCalls = []
    ∧ ∀ (body : String) (pj : Option ParsedJson),
        hashMatches (loadState fs).content_hash (env.md5 body) = true →
        update_ips { env with http := HttpResult.ok body pj } fs = update_ips env fs := by
  have hfetch : fetch_atlassian_data env.md5 (loadState fs).content_hash env.http
      = none := by
    rw [hhttp]; rfl
  refine ⟨by simp [update_ips, hfetch], by simp [update_ips, hfetch, hc],
    by simp [update_ips, hfetch], by simp [update_ips, hfetch],
    by simp [update_ips, hfetch], by simp [update_ips, hfetch], ?_⟩
  intro body pj hm
  have hf2 : fetch_atlassian_data env.md5 (loadState fs).content_hash
      (HttpResult.ok body pj) = none := by
    simp [fetch_atlassian_data, hm]
  simp [update_ips, hfetch, hf2]

/-- Witness for C10 at a concrete input: failed request, previously persisted
count 2. -/
theorem C10_witness :
    (update_ips { md5 := fun s => s, http := HttpResult.fail }
        { stateFile := some { ip_count := some 2 } }).ret = true
    ∧ (update_ips { md5 := fun s => s, http := HttpResult.fail }
        { stateFile := some { ip_count := some 2 } }).metrics
      = [(ipCountMetric, 2), (reloadMetric, 1)] :=
  have h := C10_fetch_error_is_no_change
    { md5 := fun s => s, http := HttpResult.fail }
    { stateFile := some { ip_count := some 2 } } 2 rfl rfl
  ⟨h.1, h.2.1⟩

end IpUpdater
